import Mathlib

/-!
Shallow embedding of the rsiup dynamic-binding layer
(`src/prelude.rs`, `src/iup.rs`, `src/xerror.rs`).

Modelling conventions:
* A Rust `&str` is modelled by its UTF-8 byte sequence `RStr := List Nat`
  (each byte `< 256`); the `&str` type invariant "bytes are valid UTF-8"
  becomes the executable predicate `utf8Valid`.
* A C char pointer is modelled by the byte contents of the memory it points
  to (`List Nat`); the null pointer is modelled by `none` in
  `CPtr := Option (List Nat)`.
* A computation that may panic (Rust `unwrap`) or hit undefined behaviour
  (dereferencing an invalid pointer) returns an `Outcome`:
  `.ok v` is normal return, `.panicked` models a Rust panic, `.ub` models
  undefined behaviour.
* Native IUP functions are opaque to this layer; each facade method takes
  the native function it calls as an explicit argument, and the `.ok`
  payload records exactly the marshalled values the source passes to /
  returns from the native call.
-/

namespace Rsiup

/-- UTF-8 bytes of a Rust `&str` / `String`. -/
abbrev RStr := List Nat

/-- A C `char` pointer: `none` is the null pointer, `some mem` points at
memory holding the byte sequence `mem`. -/
abbrev CPtr := Option (List Nat)

/-- Result of running a piece of Rust code: normal value, panic
(`unwrap` failure), or undefined behaviour. -/
inductive Outcome (α : Type) where
  | ok (a : α)
  | panicked
  | ub
  deriving DecidableEq, Repr

/-- Sequencing of possibly-panicking computations. -/
def Outcome.bind {α β : Type} : Outcome α → (α → Outcome β) → Outcome β
  | .ok a, f => f a
  | .panicked, _ => .panicked
  | .ub, _ => .ub

/-- `src/xerror.rs`: the closed set of error kinds of `XError`
(payloads elided; `Error` carries its message). The source has no
symbol-not-found variant: loader errors are wrapped in `Dll` only where
`From<libloading::Error>` is invoked, which `Iup::new` never does. -/
inductive XErrorK where
  | Dll
  | Error (msg : String)
  | IoErr
  | Utf8Encoding
  | Utf8Decoding
  deriving DecidableEq, Repr

/-- `src/prelude.rs` sentinel constants (values from the source). -/
def NOERROR : Int := 0

/-- `src/prelude.rs`: `ERROR` sentinel. -/
def ERROR : Int := 1

/-- UTF-8 continuation byte `0x80..=0xBF` (as in `core::str::from_utf8`
validation, which `str::to_str`/`CStr::to_str` rely on). -/
def contByte (b : Nat) : Bool := decide (0x80 ≤ b ∧ b ≤ 0xBF)

/-- UTF-8 validity of a byte sequence, mirroring the byte-level validation
performed by Rust's `core::str::from_utf8` (rejects overlong forms,
surrogates and code points above `0x10FFFF`). -/
def utf8Valid : List Nat → Bool
  | [] => true
  | b :: t =>
    if b ≤ 0x7F then utf8Valid t
    else if 0xC2 ≤ b ∧ b ≤ 0xDF then
      match t with
      | c :: t2 => contByte c && utf8Valid t2
      | [] => false
    else if b = 0xE0 then
      match t with
      | c :: d :: t2 =>
        decide (0xA0 ≤ c ∧ c ≤ 0xBF) && contByte d && utf8Valid t2
      | _ => false
    else if (0xE1 ≤ b ∧ b ≤ 0xEC) ∨ (0xEE ≤ b ∧ b ≤ 0xEF) then
      match t with
      | c :: d :: t2 => contByte c && contByte d && utf8Valid t2
      | _ => false
    else if b = 0xED then
      match t with
      | c :: d :: t2 =>
        decide (0x80 ≤ c ∧ c ≤ 0x9F) && contByte d && utf8Valid t2
      | _ => false
    else if b = 0xF0 then
      match t with
      | c :: d :: e :: t2 =>
        decide (0x90 ≤ c ∧ c ≤ 0xBF) && contByte d && contByte e &&
          utf8Valid t2
      | _ => false
    else if 0xF1 ≤ b ∧ b ≤ 0xF3 then
      match t with
      | c :: d :: e :: t2 =>
        contByte c && contByte d && contByte e && utf8Valid t2
      | _ => false
    else if b = 0xF4 then
      match t with
      | c :: d :: e :: t2 =>
        decide (0x80 ≤ c ∧ c ≤ 0x8F) && contByte d && contByte e &&
          utf8Valid t2
      | _ => false
    else false

/-- `CStr::from_ptr` on non-null memory: the bytes up to (excluding) the
first NUL terminator. -/
def cstr_bytes (mem : List Nat) : List Nat := mem.takeWhile (· != 0)

/-- `src/prelude.rs` `c_from_str`:
`CString::new(s).unwrap().into_raw()`. `CString::new` fails exactly when
`s` contains an interior NUL byte, and the `unwrap` turns that failure
into a panic; otherwise the allocation holds the bytes of `s` followed by
the NUL terminator. -/
def c_from_str (s : RStr) : Outcome (List Nat) :=
  if 0 ∈ s then .panicked else .ok (s ++ [0])

/-- `src/prelude.rs` `c_to_string` on non-null memory:
`CStr::from_ptr` then `to_str()?` (UTF-8 validation) then `to_owned`.
A decode failure is the `Utf8Decoding` error kind (via
`From<str::Utf8Error>`). -/
def c_to_string (mem : List Nat) : Except XErrorK RStr :=
  if utf8Valid (cstr_bytes mem) then .ok (cstr_bytes mem)
  else .error .Utf8Decoding

/-- `c_to_string` as actually invoked on a native-returned pointer:
`CStr::from_ptr(p)` performs no null check, so a null pointer is
dereferenced — undefined behaviour, modelled as `.ub`. -/
def c_to_string_ptr : CPtr → Outcome (Except XErrorK RStr)
  | none => .ub
  | some mem => .ok (c_to_string mem)

/-- `src/iup.rs` `Iup::set_attribute`: marshals `name` and `value` with
`c_from_str` (in that order) and passes them with `ih` to the native
`IupSetAttribute`; the `.ok` payload is the argument triple passed. -/
def Iup.set_attribute (ih : Nat) (name value : RStr) :
    Outcome (Nat × List Nat × List Nat) :=
  (c_from_str name).bind fun n =>
    (c_from_str value).bind fun v => .ok (ih, n, v)

/-- `src/iup.rs` `Iup::button`: marshals `title` then `action` and passes
them to the native `IupButton`. -/
def Iup.button (title action : RStr) : Outcome (List Nat × List Nat) :=
  (c_from_str title).bind fun t =>
    (c_from_str action).bind fun a => .ok (t, a)

/-- `src/iup.rs` `Iup::label`: marshals `title` and passes it to the
native `IupLabel`. -/
def Iup.label (title : RStr) : Outcome (List Nat) :=
  (c_from_str title).bind fun t => .ok t

/-- `src/iup.rs` `Iup::message`: marshals `title` then `message` and
passes them to the native `IupMessage`. -/
def Iup.message (title message : RStr) : Outcome (List Nat × List Nat) :=
  (c_from_str title).bind fun t =>
    (c_from_str message).bind fun m => .ok (t, m)

/-- `src/iup.rs` `Iup::get_attribute`: marshals `name`, calls the native
`IupGetAttribute` (modelled by `native`, returning a char pointer), and
maps the `c_to_string` result `Ok v => Some v, Err(_) => None`. -/
def Iup.get_attribute (native : Nat → List Nat → CPtr) (ih : Nat)
    (name : RStr) : Outcome (Option RStr) :=
  (c_from_str name).bind fun n =>
    (c_to_string_ptr (native ih n)).bind fun r => .ok r.toOption

/-- `src/iup.rs` `Iup::get_global`: marshals `name`, calls the native
`IupGetGlobal`, and maps the `c_to_string` result
`Ok v => v, Err(_) => ""` (the empty string, i.e. `[]`). -/
def Iup.get_global (native : List Nat → CPtr) (name : RStr) :
    Outcome RStr :=
  (c_from_str name).bind fun n =>
    (c_to_string_ptr (native n)).bind fun r =>
      .ok (match r with | .ok v => v | .error _ => [])

/-- `src/iup.rs` `Iup::version`: calls the native `IupVersion` and maps
the `c_to_string` result `Ok v => v, Err(_) => "0.0"`
(`"0.0"` is the bytes `[48, 46, 48]`). -/
def Iup.version (native : Unit → CPtr) : Outcome RStr :=
  (c_to_string_ptr (native ())).bind fun r =>
    .ok (match r with | .ok v => v | .error _ => [48, 46, 48])

/-- `src/iup.rs` `Iup::show`: `(self._show)(ih) == NOERROR`. The native
return value is modelled by `native ih`. -/
def Iup.show (native : Nat → Int) (ih : Nat) : Bool :=
  native ih == NOERROR

/-- `src/iup.rs` `Iup::show_xy`: `(self._showxy)(ih, x, y) == NOERROR`. -/
def Iup.show_xy (native : Nat → Int → Int → Int) (ih : Nat)
    (x y : Int) : Bool :=
  native ih x y == NOERROR

/-! ### The symbol-binding table (`src/iup.rs`) -/

/-- A C type as it appears in the declared native signatures
(`src/iup.rs` type aliases) and in the `iup.h` declaration table quoted
verbatim in `src/iup.rs` (`const`/`mut` char pointers are identified). -/
inductive CTy where
  | handle
  | chars
  | int
  | callback
  | ptrInt
  | ptrPtrPtrChars
  deriving DecidableEq, Repr

/-- Return type of a native signature (`void` for none). -/
inductive CRet where
  | ret (t : CTy)
  | void
  deriving DecidableEq, Repr

/-- A native calling-convention signature: argument types, whether the
function is variadic (`...`), and the return type. -/
structure Sig where
  args : List CTy
  variadic : Bool
  ret : CRet
  deriving DecidableEq, Repr

/-- `src/iup.rs` type alias `SigCCrH`. -/
def SigCCrH : Sig := ⟨[.chars, .chars], false, .ret .handle⟩

/-- `src/iup.rs` type alias `SigCCrV`. -/
def SigCCrV : Sig := ⟨[.chars, .chars], false, .void⟩

/-- `src/iup.rs` type alias `SigCHrH`. -/
def SigCHrH : Sig := ⟨[.chars, .handle], false, .ret .handle⟩

/-- `src/iup.rs` type alias `SigCrC`. -/
def SigCrC : Sig := ⟨[.chars], false, .ret .chars⟩

/-- `src/iup.rs` type alias `SigCrH`. -/
def SigCrH : Sig := ⟨[.chars], false, .ret .handle⟩

/-- `src/iup.rs` type alias `SigHCCrV`. -/
def SigHCCrV : Sig := ⟨[.handle, .chars, .chars], false, .void⟩

/-- `src/iup.rs` type alias `SigHCHrV`. -/
def SigHCHrV : Sig := ⟨[.handle, .chars, .handle], false, .void⟩

/-- `src/iup.rs` type alias `SigHCIrV`. -/
def SigHCIrV : Sig := ⟨[.handle, .chars, .int], false, .void⟩

/-- `src/iup.rs` type alias `SigHCKrK`. -/
def SigHCKrK : Sig := ⟨[.handle, .chars, .callback], false, .ret .callback⟩

/-- `src/iup.rs` type alias `SigHCrC`. -/
def SigHCrC : Sig := ⟨[.handle, .chars], false, .ret .chars⟩

/-- `src/iup.rs` type alias `SigHCrH`. -/
def SigHCrH : Sig := ⟨[.handle, .chars], false, .ret .handle⟩

/-- `src/iup.rs` type alias `SigHCrI`. -/
def SigHCrI : Sig := ⟨[.handle, .chars], false, .ret .int⟩

/-- `src/iup.rs` type alias `SigHHrH`. -/
def SigHHrH : Sig := ⟨[.handle, .handle], false, .ret .handle⟩

/-- `src/iup.rs` type alias `SigHIIrI`. -/
def SigHIIrI : Sig := ⟨[.handle, .int, .int], false, .ret .int⟩

/-- `src/iup.rs` type alias `SigHrH`. -/
def SigHrH : Sig := ⟨[.handle], false, .ret .handle⟩

/-- `src/iup.rs` type alias `SigHrI`. -/
def SigHrI : Sig := ⟨[.handle], false, .ret .int⟩

/-- `src/iup.rs` type alias `SigHsrH` (variadic). -/
def SigHsrH : Sig := ⟨[.handle], true, .ret .handle⟩

/-- `src/iup.rs` type alias `SigVrC`. -/
def SigVrC : Sig := ⟨[], false, .ret .chars⟩

/-- `src/iup.rs` type alias `SigVrH`. -/
def SigVrH : Sig := ⟨[], false, .ret .handle⟩

/-- `src/iup.rs` type alias `SigVrI`. -/
def SigVrI : Sig := ⟨[], false, .ret .int⟩

/-- `src/iup.rs` type alias `SigVrV`. -/
def SigVrV : Sig := ⟨[], false, .void⟩

/-- `src/iup.rs` type alias `SigpIpppCrI`. -/
def SigpIpppCrI : Sig := ⟨[.ptrInt, .ptrPtrPtrChars], false, .ret .int⟩

/-- The native library's published header signatures, transcribed from
the verbatim `iup.h` declaration table kept in `src/iup.rs` (the
commented `extern` block), restricted to the exported names this layer
mentions. -/
def headerSig : List (String × Sig) :=
  [("IupOpen", SigpIpppCrI),
   ("IupClose", SigVrV),
   ("IupMainLoop", SigVrI),
   ("IupVersion", SigVrC),
   ("IupVersionShow", SigVrV),
   ("IupAppend", SigHHrH),
   ("IupGetDialog", SigHrH),
   ("IupGetDialogChild", SigHCrH),
   ("IupShow", SigHrI),
   ("IupShowXY", SigHIIrI),
   ("IupSetAttribute", SigHCCrV),
   ("IupGetAttribute", SigHCrC),
   ("IupGetInt", SigHCrI),
   ("IupSetInt", SigHCIrV),
   ("IupSetGlobal", SigCCrV),
   ("IupGetGlobal", SigCrC),
   ("IupSetFocus", SigHrH),
   ("IupSetCallback", SigHCKrK),
   ("IupSetHandle", SigCHrH),
   ("IupSetAttributeHandle", SigHCHrV),
   ("IupHbox", SigHsrH),
   ("IupVbox", SigHsrH),
   ("IupTimer", SigVrH),
   ("IupButton", SigCCrH),
   ("IupLabel", SigCrH),
   ("IupDialog", SigHrH),
   ("IupMessage", SigCCrV)]

/-- The `Iup` struct's symbol bindings, in field-resolution order from
`Iup::new` in `src/iup.rs`: field name, exported name passed to
`IUP_LIB.get`, and the declared Rust signature of the field. -/
def iupBindings : List (String × String × Sig) :=
  [("_append", "IupAppend", SigHHrH),
   ("_button", "IupButton", SigCCrH),
   ("_close", "IupClose", SigVrV),
   ("_dialog", "IupDialog", SigHrH),
   ("_getattribute", "IupGetAttribute", SigHCrC),
   ("_getattributeih", "IupGetAttribute", SigHCrH),
   ("_getdialogchild", "IupGetDialog", SigHCrH),
   ("_getglobal", "IupGetGlobal", SigCrC),
   ("_getint", "IupGetInt", SigHCrI),
   ("_hbox", "IupHbox", SigHsrH),
   ("_label", "IupLabel", SigCrH),
   ("_mainloop", "IupMainLoop", SigVrI),
   ("_message", "IupMessage", SigCCrV),
   ("_setattribute", "IupSetAttribute", SigHCCrV),
   ("_setattributehandle", "IupSetAttributeHandle", SigHCHrV),
   ("_setattributeih", "IupSetAttribute", SigHCHrV),
   ("_setcallback", "IupSetCallback", SigHCKrK),
   ("_setfocus", "IupSetFocus", SigHrH),
   ("_setglobal", "IupSetGlobal", SigCCrV),
   ("_sethandle", "IupSetHandle", SigCHrH),
   ("_setint", "IupSetInt", SigHCIrV),
   ("_show", "IupShow", SigHrI),
   ("_showxy", "IupShowXY", SigHIIrI),
   ("_timer", "IupTimer", SigVrH),
   ("_vbox", "IupVbox", SigHsrH),
   ("_version", "IupVersion", SigVrC),
   ("_versionshow", "IupVersionShow", SigVrV)]

/-- Every exported name `Iup::new` resolves with `IUP_LIB.get(...)`:
`IupOpen` and `IupSetGlobal` are resolved before the struct literal, the
rest are the bindings' exported names. -/
def iupRequiredSymbols : List String :=
  "IupOpen" :: "IupSetGlobal" :: iupBindings.map (fun b => b.2.1)

/-- `src/iup.rs` `Iup::new`, parametrised by the set of exported names
`present` in the loaded library and by the native `IupOpen` return value
`openRet`. Each `IUP_LIB.get(...).unwrap()` panics when its name is
absent; if `iup_open(...) != NOERROR` the function returns
`Err(XError::Error("Failed to open IUP library"))` via `xerr!`; on
success it returns `Ok` with the fully resolved binding table. -/
def iupNew (present : List String) (openRet : Int) :
    Outcome (Except XErrorK (List (String × String × Sig))) :=
  if "IupOpen" ∈ present then
    if openRet ≠ NOERROR then
      .ok (.error (.Error "Failed to open IUP library"))
    else if "IupSetGlobal" ∈ present then
      if ∀ b ∈ iupBindings, b.2.1 ∈ present then .ok (.ok iupBindings)
      else .panicked
    else .panicked
  else .panicked

/-- The `Im` struct's symbol bindings (`src/iup.rs`): the single field
`_loadimage`, resolved from `IM_LIB` as `IupLoadImage` with declared
signature `SigCrH`. -/
def imBindings : List (String × String × Sig) :=
  [("_loadimage", "IupLoadImage", SigCrH)]

/-- Every exported name `Im::new` resolves with `IM_LIB.get(...)`. -/
def imRequiredSymbols : List String := imBindings.map (fun b => b.2.1)

/-- `src/iup.rs` `Im::new`, parametrised by the set of exported names
`present` in the loaded IM library. It returns `Im` directly (no
`Result`): `IM_LIB.get(b"IupLoadImage\x00").unwrap()` panics when the
name is absent, otherwise the resolved binding table is the value. -/
def imNew (present : List String) : Outcome (List (String × String × Sig)) :=
  if ∀ b ∈ imBindings, b.2.1 ∈ present then .ok imBindings
  else .panicked

/-! ### Environment, `with_env`, and the relauncher (`src/iup.rs`) -/

/-- The process environment: variable name to value (`none` = unset).
Non-unicode values are not modelled. -/
def Env := String → Option String

/-- `std::env::set_var`. -/
def setVar (env : Env) (k v : String) : Env :=
  fun k2 => if k2 = k then some v else env k2

/-- `src/iup.rs` `with_env`: records the previous value of `key`, sets it
to `value`, runs `func` (whose effect on the environment is `f`), and on
exit restores the previous value only if there was one (the `defer` does
nothing when `prev` was `None`). The result is the environment after
`with_env` returns. -/
def with_env (env : Env) (key value : String) (f : Env → Env) : Env :=
  let prev := env key
  let after := f (setVar env key value)
  match prev with
  | some p => setVar after key p
  | none => after

/-- What the spawned child process looks like: the program executed, the
arguments passed after the program name (`Command::args`), and the two
environment variables set on it. -/
structure SpawnSpec where
  program : String
  argv : List String
  guardVar : String × String
  libPath : String
  deriving DecidableEq, Repr

/-- Exit status of the child: `status.code()` is `some` unless the child
was terminated by a signal. -/
inductive ExitStatus where
  | code (c : Int)
  | signal (s : Int)
  deriving DecidableEq, Repr

/-- Observable effect of `set_library_path`. -/
inductive SlpResult where
  | noop
  | exited (code : Int) (spawn : SpawnSpec)
  | fatalSignal (spawn : SpawnSpec)
  deriving DecidableEq, Repr

/-- The recursion-guard test in `src/iup.rs` `set_library_path`:
`env::var("__RECURSION_HACK__").map_or(false, |s| s == "1")`. -/
def guardActive (env : Env) : Bool :=
  (env "__RECURSION_HACK__").elim false (· == "1")

/-- `src/iup.rs` `set_library_path` (the `cfg(unix)` body), parametrised
by the process environment, `env::current_exe()` (`exe`), the directory
computed by `exe_path()` (`exeDir`), `env::args_os()` (`argsOs`, which
includes the program name as its first element), and the wait status of
the spawned child. When the guard test fails it spawns
`Command::new(exe).env(guard, "1").args(argsOs).env("LD_LIBRARY_PATH",
libPath)` where `libPath` is `exeDir` prepended (with `:`) to any
existing `LD_LIBRARY_PATH`, then exits with the child's exit code, or
panics if the child was terminated by a signal. -/
def set_library_path (env : Env) (exe exeDir : String)
    (argsOs : List String) (status : ExitStatus) : SlpResult :=
  if guardActive env then .noop
  else
    let libPath := match env "LD_LIBRARY_PATH" with
      | some old => exeDir ++ ":" ++ old
      | none => exeDir
    let spawn : SpawnSpec := ⟨exe, argsOs, ("__RECURSION_HACK__", "1"), libPath⟩
    match status with
    | .code c => .exited c spawn
    | .signal _ => .fatalSignal spawn

/-- Empty environment: every variable unset. -/
def envEmpty : Env := fun _ => none

/-- Environment with the recursion guard set to `"0"`. -/
def envGuardZero : Env :=
  fun k => if k = "__RECURSION_HACK__" then some "0" else none

/-- Environment with `HOME` set to `"old"`, all else unset. -/
def envWithOld : Env := fun k => if k = "HOME" then some "old" else none

/-! ### Theorems -/

/-- Bytes of a NUL-free string followed by the terminator read back
exactly as the original bytes. -/
theorem takeWhile_ne_zero_append (s : List Nat) (h : 0 ∉ s) :
    (s ++ [0]).takeWhile (· != 0) = s := by
  induction s with
  | nil => simp
  | cons a t ih =>
    have ha : a ≠ 0 := fun e => h (by simp [e])
    have ht : 0 ∉ t := fun m => h (List.mem_cons_of_mem a m)
    simp [List.takeWhile_cons, ha, ih ht]

/-- Claim C1, counterexample: `Iup::set_attribute` called with an
attribute name containing an embedded NUL byte panics (`unwrap` inside
`c_from_str`); it does not return `None`/empty to the caller. -/
theorem c1_counterexample :
    Iup.set_attribute 0 [0] [] = Outcome.panicked := by decide

/-- Claim C1, amended: a facade text-input method (`set_attribute`,
`button`, `label`, `message`) called with a string containing an
embedded NUL byte panics via the `unwrap` in `c_from_str`, rather than
returning `None`/empty; only native-to-text decode failures are mapped
to absence. -/
theorem c1_amended (ih : Nat) (s t : RStr) (h : 0 ∈ s) :
    Iup.set_attribute ih s t = Outcome.panicked ∧
    Iup.button s t = Outcome.panicked ∧
    Iup.label s = Outcome.panicked ∧
    Iup.message s t = Outcome.panicked := by
  refine ⟨?_, ?_, ?_, ?_⟩ <;>
    simp [Iup.set_attribute, Iup.button, Iup.label, Iup.message,
      c_from_str, h, Outcome.bind]

/-- Claim C1, witness for the amended theorem at a concrete input. -/
theorem c1_amended_witness :
    (0 : Nat) ∈ ([0] : List Nat) ∧
    (Iup.set_attribute 7 [0] [] = Outcome.panicked ∧
     Iup.button [0] [] = Outcome.panicked ∧
     Iup.label [0] = Outcome.panicked ∧
     Iup.message [0] [] = Outcome.panicked) :=
  ⟨by decide, c1_amended 7 [0] [] (by decide)⟩

/-- Claim C2: the binding stored into `Iup::_getdialogchild` resolves the
exported name `"IupGetDialog"`, yet is declared with the two-argument
`(handle, string) -> handle` signature `SigHCrH`; the published header
entry for `IupGetDialog` (quoted verbatim in `src/iup.rs`) is the
one-argument `(handle) -> handle` signature `SigHrH`. The declared
signature instead matches the header entry for `IupGetDialogChild`,
which is the symbol the field name and the `get_dialog_child` wrapper
evidently intend. -/
theorem c2_getdialogchild_mismatch :
    iupBindings.lookup "_getdialogchild" = some ("IupGetDialog", SigHCrH) ∧
    headerSig.lookup "IupGetDialog" = some SigHrH ∧
    SigHCrH ≠ SigHrH ∧
    headerSig.lookup "IupGetDialogChild" = some SigHCrH := by decide

/-- Claim C3, counterexample: with every required symbol present except
`IupVersion` and a successful native `IupOpen`, `Iup::new` panics (the
`unwrap` on `IUP_LIB.get`); it does not fail with a returned
`SymbolNotFound` error — indeed `XError` (`XErrorK` here) has no such
variant. -/
theorem c3_counterexample :
    iupNew (iupRequiredSymbols.filter (· != "IupVersion")) 0 =
      Outcome.panicked := by rfl

/-- Claim C3, amended: if any single declared exported name is absent
from the loaded library then Facade Handle construction never returns a
constructed handle: `Iup::new` with the native open succeeding panics at
the missing symbol's `unwrap`, and in every case its result is either
that panic or the early `Err("Failed to open IUP library")`; likewise
`Im::new` panics at its missing symbol's `unwrap`. So no
partially-constructed handle is observable from either constructor. -/
theorem c3_amended (present : List String) (openRet : Int) (name : String)
    (imPresent : List String) (imName : String)
    (h1 : name ∈ iupRequiredSymbols) (h2 : name ∉ present)
    (h3 : imName ∈ imRequiredSymbols) (h4 : imName ∉ imPresent) :
    ((openRet = NOERROR → iupNew present openRet = Outcome.panicked) ∧
     (iupNew present openRet = Outcome.panicked ∨
       iupNew present openRet =
         Outcome.ok (Except.error (XErrorK.Error
           "Failed to open IUP library")))) ∧
    imNew imPresent = Outcome.panicked := by
  have imPart : imNew imPresent = Outcome.panicked := by
    have hall : ¬ ∀ b ∈ imBindings, b.2.1 ∈ imPresent := by
      obtain ⟨b, hb, hbe⟩ := List.mem_map.mp h3
      exact fun hallb => h4 (hbe ▸ hallb b hb)
    unfold imNew
    rw [if_neg hall]
  refine ⟨?_, imPart⟩
  by_cases hOpen : "IupOpen" ∈ present
  · by_cases hRet : openRet = NOERROR
    · have hRet2 : ¬(openRet ≠ NOERROR) := fun h => h hRet
      by_cases hSG : "IupSetGlobal" ∈ present
      · have hall : ¬ ∀ b ∈ iupBindings, b.2.1 ∈ present := by
          rcases List.mem_cons.mp h1 with h | h1'
          · exact absurd (h ▸ hOpen) h2
          rcases List.mem_cons.mp h1' with h | hmap
          · exact absurd (h ▸ hSG) h2
          · obtain ⟨b, hb, hbe⟩ := List.mem_map.mp hmap
            exact fun hallb => h2 (hbe ▸ hallb b hb)
        unfold iupNew
        rw [if_pos hOpen, if_neg hRet2, if_pos hSG, if_neg hall]
        exact ⟨fun _ => rfl, Or.inl rfl⟩
      · unfold iupNew
        rw [if_pos hOpen, if_neg hRet2, if_neg hSG]
        exact ⟨fun _ => rfl, Or.inl rfl⟩
    · unfold iupNew
      rw [if_pos hOpen, if_pos hRet]
      exact ⟨fun h => absurd h hRet, Or.inr rfl⟩
  · unfold iupNew
    rw [if_neg hOpen]
    exact ⟨fun _ => rfl, Or.inl rfl⟩

/-- Claim C3, witness for the amended theorem: with empty symbol tables
and a successful open code, both `Iup::new` and `Im::new` panic and
return no handle. -/
theorem c3_amended_witness :
    "IupOpen" ∈ iupRequiredSymbols ∧ "IupOpen" ∉ ([] : List String) ∧
    "IupLoadImage" ∈ imRequiredSymbols ∧
    "IupLoadImage" ∉ ([] : List String) ∧
    ((((0 : Int) = NOERROR → iupNew [] 0 = Outcome.panicked) ∧
      (iupNew [] 0 = Outcome.panicked ∨
        iupNew [] 0 = Outcome.ok (Except.error (XErrorK.Error
          "Failed to open IUP library")))) ∧
     imNew [] = Outcome.panicked) :=
  ⟨by decide, by decide, by decide, by decide,
   c3_amended [] 0 "IupOpen" [] "IupLoadImage"
     (by decide) (by decide) (by decide) (by decide)⟩

/-- Claim C4, counterexample: with `__RECURSION_HACK__` present but set
to `"0"`, `set_library_path` is not a no-op — the guard test compares
the value against `"1"`, so it relaunches. -/
theorem c4_counterexample :
    set_library_path envGuardZero "/opt/app/exe" "/opt/app/iup/linux"
      ["app"] (ExitStatus.code 0) ≠ SlpResult.noop := by decide

/-- Claim C4, amended: `set_library_path` is a no-op (spawns no child,
does not exit) exactly when `__RECURSION_HACK__` is present with the
value `"1"`; any other value, or absence, triggers the relaunch. -/
theorem c4_amended (env : Env) (exe exeDir : String)
    (argsOs : List String) (status : ExitStatus) :
    set_library_path env exe exeDir argsOs status = SlpResult.noop ↔
      env "__RECURSION_HACK__" = some "1" := by
  constructor
  · intro h
    by_cases hg : guardActive env = true
    · unfold guardActive at hg
      cases he : env "__RECURSION_HACK__" with
      | none => rw [he] at hg; simp at hg
      | some v =>
        rw [he] at hg
        simp only [Option.elim] at hg
        rw [eq_of_beq hg]
    · unfold set_library_path at h
      rw [if_neg hg] at h
      cases status <;> simp at h
  · intro he
    unfold set_library_path guardActive
    rw [he]
    simp

/-- Claim C5: evaluation of `set_library_path` at a concrete input. The
parent runs as `argv = ["app", "--flag"]`; the child is spawned with the
full `env::args_os()` (including the program name `"app"`) passed after
the executable, so the child's argument list `["app", "--flag"]` is not
identical to the parent's arguments `["--flag"]` — the program name is
duplicated into the first argument. The child's exit code `7` is
propagated as the parent's exit code, and termination by a signal is a
panic (fatal). -/
theorem c5_argv_duplication :
    set_library_path envEmpty "/opt/app/exe" "/opt/app/iup/linux"
      ["app", "--flag"] (ExitStatus.code 7) =
      SlpResult.exited 7 ⟨"/opt/app/exe", ["app", "--flag"],
        ("__RECURSION_HACK__", "1"), "/opt/app/iup/linux"⟩ ∧
    set_library_path envEmpty "/opt/app/exe" "/opt/app/iup/linux"
      ["app", "--flag"] (ExitStatus.signal 9) =
      SlpResult.fatalSignal ⟨"/opt/app/exe", ["app", "--flag"],
        ("__RECURSION_HACK__", "1"), "/opt/app/iup/linux"⟩ ∧
    ["app", "--flag"] ≠ ["--flag"] := by decide

/-- Claim C6: for every string (valid UTF-8 bytes) not containing an
embedded NUL byte, `c_from_str` produces the NUL-terminated native
representation and `c_to_string` on it yields the original string
exactly. -/
theorem c6_roundtrip (s : RStr) (hu : utf8Valid s = true) (h0 : 0 ∉ s) :
    c_from_str s = Outcome.ok (s ++ [0]) ∧
    c_to_string (s ++ [0]) = Except.ok s := by
  refine ⟨by simp [c_from_str, h0], ?_⟩
  simp [c_to_string, cstr_bytes, takeWhile_ne_zero_append s h0, hu]

/-- Claim C6, witness: round trip of the two-character string `"aπ"`
(bytes `[97, 207, 128]`). -/
theorem c6_roundtrip_witness :
    utf8Valid [97, 207, 128] = true ∧ (0 : Nat) ∉ ([97, 207, 128] : List Nat) ∧
    (c_from_str [97, 207, 128] = Outcome.ok [97, 207, 128, 0] ∧
     c_to_string [97, 207, 128, 0] = Except.ok [97, 207, 128]) :=
  ⟨by decide, by decide, c6_roundtrip [97, 207, 128] (by decide) (by decide)⟩

/-- Claim C7: for the wrapped boolean-returning operations `show` and
`show_xy`, a native return value equal to `NOERROR` maps to `true` and
every other value maps to `false`. -/
theorem c7_sentinel (f : Nat → Int) (g : Nat → Int → Int → Int)
    (ih : Nat) (x y : Int) :
    (Iup.show f ih = true ↔ f ih = NOERROR) ∧
    (Iup.show_xy g ih x y = true ↔ g ih x y = NOERROR) := by
  constructor <;> simp [Iup.show, Iup.show_xy]

/-- Claim C8: `Iup::get_attribute`'s `None`-on-failure guarantee covers
only invalid UTF-8 content: a null pointer returned by the native
library is handed to `CStr::from_ptr` with no check and dereferenced
(undefined behaviour), not mapped to `None`; a non-null result is
`None` exactly on decode failure and `Some` of the bytes otherwise. -/
theorem c8_null_deref (native : Nat → List Nat → CPtr) (ih : Nat)
    (name : RStr) (mem : List Nat) (h0 : 0 ∉ name) :
    (native ih (name ++ [0]) = none →
      Iup.get_attribute native ih name = Outcome.ub) ∧
    (native ih (name ++ [0]) = some mem →
      utf8Valid (cstr_bytes mem) = false →
      Iup.get_attribute native ih name = Outcome.ok none) ∧
    (native ih (name ++ [0]) = some mem →
      utf8Valid (cstr_bytes mem) = true →
      Iup.get_attribute native ih name =
        Outcome.ok (some (cstr_bytes mem))) := by
  refine ⟨fun h => ?_, fun h hbad => ?_, fun h hok => ?_⟩
  · simp [Iup.get_attribute, c_from_str, h0, Outcome.bind, h,
      c_to_string_ptr]
  · simp [Iup.get_attribute, c_from_str, h0, Outcome.bind, h,
      c_to_string_ptr, c_to_string, hbad, Except.toOption]
  · simp [Iup.get_attribute, c_from_str, h0, Outcome.bind, h,
      c_to_string_ptr, c_to_string, hok, Except.toOption]

/-- Claim C8, witness: a native `IupGetAttribute` returning the null
pointer leads to undefined behaviour, while one returning invalid UTF-8
yields `None`. -/
theorem c8_null_deref_witness :
    (0 : Nat) ∉ ([72] : List Nat) ∧
    Iup.get_attribute (fun _ _ => none) 3 [72] = Outcome.ub ∧
    Iup.get_attribute (fun _ _ => some [255, 0]) 3 [72] =
      Outcome.ok none :=
  ⟨by decide,
   (c8_null_deref (fun _ _ => none) 3 [72] [] (by decide)).1 rfl,
   (c8_null_deref (fun _ _ => some [255, 0]) 3 [72] [255, 0]
     (by decide)).2.1 rfl (by decide)⟩

/-- Claim C9: after `with_env(key, value, func)` returns (for a `func`
that leaves `key` alone, as at the one call site), `key` is restored to
its previous value if it had one, but if `key` was unset before the call
it remains set to the new value — the `defer` never removes it. -/
theorem c9_with_env (env : Env) (k v : String) (f : Env → Env) :
    (∀ p, env k = some p → with_env env k v f k = some p) ∧
    (env k = none → (∀ e, f e k = e k) →
      with_env env k v f k = some v) := by
  constructor
  · intro p hp
    simp [with_env, hp, setVar]
  · intro hn hf
    simp [with_env, hn, hf, setVar]

/-- Claim C9, witness: a previously-set variable is restored; a
previously-unset variable stays set to the new value. -/
theorem c9_with_env_witness :
    envWithOld "HOME" = some "old" ∧
    with_env envWithOld "HOME" "new" id "HOME" = some "old" ∧
    envEmpty "LD_LIBRARY_PATH" = none ∧
    with_env envEmpty "LD_LIBRARY_PATH" "/opt/lib" id "LD_LIBRARY_PATH" =
      some "/opt/lib" :=
  ⟨by decide,
   (c9_with_env envWithOld "HOME" "new" id).1 "old" (by decide),
   by decide,
   (c9_with_env envEmpty "LD_LIBRARY_PATH" "/opt/lib" id).2 (by decide)
     (fun _ => rfl)⟩

/-- Claim C10: `get_global` and `version` return plain strings, never an
error: when the native string result fails to decode, `get_global`
returns the empty string and `version` returns `"0.0"`
(bytes `[48, 46, 48]`) instead of propagating the failure. -/
theorem c10_decode_failure (gnative : List Nat → CPtr) (name : RStr)
    (mem : List Nat) (vnative : Unit → CPtr) (vmem : List Nat)
    (h0 : 0 ∉ name)
    (hg : gnative (name ++ [0]) = some mem)
    (hgm : utf8Valid (cstr_bytes mem) = false)
    (hv : vnative () = some vmem)
    (hvm : utf8Valid (cstr_bytes vmem) = false) :
    Iup.get_global gnative name = Outcome.ok [] ∧
    Iup.version vnative = Outcome.ok [48, 46, 48] := by
  constructor <;>
    simp [Iup.get_global, Iup.version, c_from_str, h0, Outcome.bind,
      c_to_string_ptr, c_to_string, hg, hgm, hv, hvm]

/-- Claim C10, witness: concrete native results that fail UTF-8
decoding yield `""` from `get_global` and `"0.0"` from `version`. -/
theorem c10_decode_failure_witness :
    (0 : Nat) ∉ ([86] : List Nat) ∧
    (Iup.get_global (fun _ => some [200, 0]) [86] = Outcome.ok [] ∧
     Iup.version (fun _ => some [200, 0]) = Outcome.ok [48, 46, 48]) :=
  ⟨by decide,
   c10_decode_failure (fun _ => some [200, 0]) [86] [200, 0]
     (fun _ => some [200, 0]) [200, 0] (by decide) rfl (by decide) rfl
     (by decide)⟩

end Rsiup
